import Mathlib

/-!
Verification of `resources/lib/run_addon.py` (entry orchestration layer of the
plugin.video.netflix add-on).

The module is shallowly embedded: Python functions become Lean functions, the
external collaborators (login prompt, navigation handlers, the Kodi window
property store, dialogs, `endOfDirectory`) become explicit parameters whose
outcomes are `Except PyExc`-valued, and the side effects a claim needs to
observe (how many times the wrapped dispatch function ran, how many recovery
logins happened, which dialogs were shown, whether `endOfDirectory` was
called) are returned in explicit trace records.
-/

namespace RunAddon

/-- The Python exception classes visible in `run_addon.py`.  All of them are
subclasses of Python's `Exception`, so all of them are caught by a bare
`except Exception` clause.  `OtherException` stands for any further
`Exception` subclass. -/
inductive PyExc where
  | NotLoggedInError
  | LoginValidateError
  | MissingCredentialsError
  | InvalidPathError (msg : String)
  | BackendNotReady (msg : String)
  | InputStreamHelperError (msg : String)
  | HttpError401
  | MbrStatusNeverMemberError
  | MbrStatusFormerMemberError
  | AttributeError
  | OtherException (msg : String)
deriving DecidableEq, Repr

/-- The two exception classes caught by the `except (NotLoggedInError,
LoginValidateError)` clause of `lazy_login_wrapper` (run_addon.py line 51). -/
def sessionInvalid : PyExc → Bool
  | PyExc.NotLoggedInError => true
  | PyExc.LoginValidateError => true
  | _ => false

/-- Observable outcome of one invocation of the `lazy_login` wrapper:
how many times the wrapped dispatch function was called, how many times the
recovery `login` of the `except` clause was called, and the final result
(`Except.error e` meaning the invocation raised `e`). -/
structure DispatchTrace where
  funcCalls : Nat
  recoveryLogins : Nat
  result : Except PyExc Bool
deriving Repr

/-- The `except (NotLoggedInError, LoginValidateError)` clause of
`lazy_login_wrapper` (run_addon.py lines 51-62): call
`login(ask_credentials=not check_credentials())`; if it returns falsy, return
`False`; otherwise retry the wrapped function once.  The inner `try` catches
only `MissingCredentialsError` (from the login prompt or from the retried
call) and turns it into `False`; every other exception, in particular a
second `NotLoggedInError`/`LoginValidateError` from the retried call,
propagates.  `callsSoFar` is the number of wrapped-function calls already
performed, so the retry is call number `callsSoFar` of `func`. -/
def lazy_login_recovery (check_credentials : Bool) (login : Bool → Except PyExc Bool)
    (func : Nat → Except PyExc Bool) (callsSoFar : Nat) : DispatchTrace :=
  match login (!check_credentials) with
  | Except.error PyExc.MissingCredentialsError => ⟨callsSoFar, 1, Except.ok false⟩
  | Except.error e => ⟨callsSoFar, 1, Except.error e⟩
  | Except.ok false => ⟨callsSoFar, 1, Except.ok false⟩
  | Except.ok true =>
    match func callsSoFar with
    | Except.ok b => ⟨callsSoFar + 1, 1, Except.ok b⟩
    | Except.error PyExc.MissingCredentialsError => ⟨callsSoFar + 1, 1, Except.ok false⟩
    | Except.error e => ⟨callsSoFar + 1, 1, Except.error e⟩

/-- The body of `lazy_login_wrapper` (run_addon.py lines 45-62).
`credentials_check` is the outcome of `_check_valid_credentials()` (its
collaborator `login` lives outside this module, so its outcome is a
parameter): `Except.ok b` when it returns `b`, `Except.error e` when it
raises `e`.  `func n` is the outcome of the `n`-th call of the wrapped
dispatch function.  The outer `try` covers both the credentials check and
the first call of `func`; its `except` clause catches exactly the
session-invalid exception pair. -/
def lazy_login_wrapper (credentials_check : Except PyExc Bool) (check_credentials : Bool)
    (login : Bool → Except PyExc Bool) (func : Nat → Except PyExc Bool) : DispatchTrace :=
  match credentials_check with
  | Except.ok false => ⟨0, 0, Except.ok false⟩
  | Except.ok true =>
    match func 0 with
    | Except.ok b => ⟨1, 0, Except.ok b⟩
    | Except.error e =>
      if sessionInvalid e then lazy_login_recovery check_credentials login func 1
      else ⟨1, 0, Except.error e⟩
  | Except.error e =>
    if sessionInvalid e then lazy_login_recovery check_credentials login func 0
    else ⟨0, 0, Except.error e⟩

/-- Modelled from the spec: the root-segment constant `g.MODE_PLAY` of the
globals module (`resources/lib/globals.py`, not part of the sources here);
the spec calls it the "play" root. -/
def MODE_PLAY : String := "play"

/-- Modelled from the spec: the legacy-play root-segment constant
`g.MODE_PLAY_STRM` of the globals module. -/
def MODE_PLAY_STRM : String := "play_strm"

/-- Modelled from the spec: the directory root-segment constant
`g.MODE_DIRECTORY` of the globals module. -/
def MODE_DIRECTORY : String := "directory"

/-- Modelled from the spec: the generic-action root-segment constant
`g.MODE_ACTION` of the globals module. -/
def MODE_ACTION : String := "action"

/-- Modelled from the spec: the library root-segment constant
`g.MODE_LIBRARY` of the globals module. -/
def MODE_LIBRARY : String := "library"

/-- Modelled from the spec: the hub root-segment constant `g.MODE_HUB` of
the globals module. -/
def MODE_HUB : String := "hub"

/-- The four navigation handler classes resolvable by `_get_nav_handler`. -/
inductive NavHandler where
  | Directory
  | AddonActionExecutor
  | LibraryActionExecutor
  | HubBrowser
deriving DecidableEq, Repr

/-- Python `'/'.join(pathitems)`. -/
def joinPath (pathitems : List String) : String :=
  String.intercalate "/" pathitems

/-- `_get_nav_handler` (run_addon.py lines 88-102): a sequence of four
separate `if` statements, each overwriting `nav_handler`; `None` when no
branch matches. -/
def _get_nav_handler (root_handler : String) : Option NavHandler :=
  let nav_handler : Option NavHandler := none
  let nav_handler := if root_handler = MODE_DIRECTORY then some NavHandler.Directory else nav_handler
  let nav_handler := if root_handler = MODE_ACTION then some NavHandler.AddonActionExecutor else nav_handler
  let nav_handler := if root_handler = MODE_LIBRARY then some NavHandler.LibraryActionExecutor else nav_handler
  let nav_handler := if root_handler = MODE_HUB then some NavHandler.HubBrowser else nav_handler
  nav_handler

/-- `_execute` (run_addon.py lines 105-112), for a handler type `H` with
members of type `A`.  `instantiation` is the outcome of
`executor_type(params)`; `getMember h name` is the outcome of
`h.__getattribute__(name)`, raising `AttributeError` when no such member
exists.  The `try` block covers both the instantiation and the member
lookup and converts an `AttributeError` from either into
`InvalidPathError('Unknown action ' + '/'.join(pathitems))`; the member
invocation on line 112 sits outside the `try`. -/
def _execute {H A : Type} (instantiation : Except PyExc H)
    (getMember : H → String → Except PyExc A)
    (invoke : A → List String → Except PyExc Unit)
    (pathitems : List String) : Except PyExc Unit :=
  match instantiation.bind (fun executor => getMember executor (pathitems.headD "root")) with
  | Except.error PyExc.AttributeError =>
      Except.error (PyExc.InvalidPathError ("Unknown action " ++ joinPath pathitems))
  | Except.error e => Except.error e
  | Except.ok executor => invoke executor pathitems

/-- External collaborators of `route`/`_execute`: the two playback entry
points, handler instantiation (`executor_type(params)`, with
`g.REQUEST_PARAMS` already applied), member lookup and member invocation.
Each returns `Except.error e` when the Python call raises `e`. -/
structure RouteEnv (H A : Type) where
  play : List String → Except PyExc Unit
  play_strm : List String → Except PyExc Unit
  instantiate : NavHandler → Except PyExc H
  getMember : H → String → Except PyExc A
  invoke : A → List String → Except PyExc Unit

/-- The body of `route` (run_addon.py lines 67-85, without its `lazy_login`
wrapping).  The first component of the returned pair counts handler
instantiations attempted (`executor_type(params)` evaluations); the second
is the outcome: `Except.ok b` when `route` returns `b`, `Except.error e`
when it raises `e`. -/
def route {H A : Type} (env : RouteEnv H A) (pathitems : List String) :
    Nat × Except PyExc Bool :=
  let root_handler := pathitems.headD MODE_DIRECTORY
  if root_handler = MODE_PLAY then
    (0, (env.play (pathitems.drop 1)).map (fun _ => true))
  else if root_handler = MODE_PLAY_STRM then
    (0, (env.play_strm (pathitems.drop 1)).map (fun _ => true))
  else if root_handler = "extrafanart" then
    (0, Except.ok false)
  else
    match _get_nav_handler root_handler with
    | none =>
        (0, Except.error (PyExc.InvalidPathError ("No root handler for path " ++ joinPath pathitems)))
    | some nav_handler =>
        (1, (_execute (env.instantiate nav_handler) env.getMember env.invoke (pathitems.drop 1)).map
              (fun _ => true))

/-- The service-status record: a parsed JSON object read through `.get`, so
each field is `none` when the key is absent. -/
structure ServiceStatus where
  status : Option String
  message : Option String
deriving DecidableEq, Repr

/-- The empty Python dict `{}` seen through `.get('status')`/`.get('message')`. -/
def emptyStatus : ServiceStatus := ⟨none, none⟩

/-- `_get_service_status` (run_addon.py lines 115-121).  `getProp` is the
outcome of `window_cls.getProperty(prop)` (an absent property reads as the
empty string in Kodi); `loads` is the JSON parse, `Except.error` on any
parse failure.  The `try` covers both calls and any exception yields the
empty status. -/
def _get_service_status (getProp : Except PyExc String)
    (loads : String → Except PyExc ServiceStatus) : ServiceStatus :=
  match getProp with
  | Except.error _ => emptyStatus
  | Except.ok status =>
    if status = "" then emptyStatus
    else
      match loads status with
      | Except.ok parsed => parsed
      | Except.error _ => emptyStatus

/-- The classification test of `_check_addon_external_call` (run_addon.py
line 150): external when the invoking container's plugin name differs from
the add-on id, or the current window is not a media window. -/
def check_addon_external_call_flag (is_other_plugin_name : Bool) (window_is_media : Bool) : Bool :=
  is_other_plugin_name || !window_is_media

/-- `limit_sec` of `_check_addon_external_call` (run_addon.py line 141). -/
def limit_sec : Nat := 10

/-- The wait loop of `_check_addon_external_call` (run_addon.py lines
152-156), with elapsed time counted in poll intervals of 0.5 s (so
`limit_half` is `limit_sec` expressed in poll intervals, i.e.
`2 * limit_sec`).  `running i` tells whether the probed status is `running`
at iteration `i`; `stop i` tells whether `monitor.abortRequested()` or
`monitor.waitForAbort(0.5)` signals at iteration `i` (evaluated only when
the elapsed-time bound has not yet been reached, mirroring the
short-circuit `or`).  The result is the number of loop iterations
executed. -/
def external_call_wait_loop (running stop : Nat → Bool) (limit_half : Nat)
    (sec_elapsed_half : Nat) : Nat :=
  if running sec_elapsed_half then 0
  else if limit_half ≤ sec_elapsed_half || stop sec_elapsed_half then 1
  else 1 + external_call_wait_loop running stop limit_half (sec_elapsed_half + 1)
termination_by limit_half + 1 - sec_elapsed_half
decreasing_by simp at *; omega

/-- The dialog calls `run` can make, one constructor per UI collaborator. -/
inductive Dialog where
  | show_error_info
  | show_backend_not_ready
  | show_ok_dialog
  | show_addon_error_info (exc : PyExc)
deriving DecidableEq, Repr

/-- The exception-to-dialog mapping of the `except` clauses of `run`
(run_addon.py lines 211-240): `BackendNotReady`, `InputStreamHelperError`,
`HttpError401`, the two membership-status errors, and the final
`except Exception` catch-all.  Total on `PyExc`, as every modelled
exception class is a Python `Exception`. -/
def mapRunException : PyExc → Dialog
  | PyExc.BackendNotReady _ => Dialog.show_backend_not_ready
  | PyExc.InputStreamHelperError _ => Dialog.show_ok_dialog
  | PyExc.HttpError401 => Dialog.show_ok_dialog
  | PyExc.MbrStatusNeverMemberError => Dialog.show_error_info
  | PyExc.MbrStatusFormerMemberError => Dialog.show_error_info
  | e => Dialog.show_addon_error_info e

/-- Python `path.split('/')` on the character list of the path: split on
every `'/'`, keeping empty pieces. -/
def splitSlash : List Char → List String
  | [] => [""]
  | c :: rest =>
    let r := splitSlash rest
    if c = '/' then "" :: r
    else
      match r with
      | [] => [String.mk [c]]
      | s :: ss => String.mk (c :: s.toList) :: ss

/-- The list comprehension `[part for part in g.REQUEST_PATH.split('/') if part]`
(run_addon.py line 197). -/
def pathSegments (path : String) : List String :=
  (splitSlash path.toList).filter (fun part => part ≠ "")

/-- External collaborators and ambient state of one invocation of `run`:
the property read and JSON parse feeding `_get_service_status`, the two
inputs of the external-call classification, `g.REQUEST_PATH`,
`g.IS_ADDON_FIRSTRUN`, the outcome of `check_addon_upgrade()` (the pair
`(is_first_run_install, cancel_playback)`, or a raised exception), and the
outcome of the `lazy_login`-wrapped `route` on the parsed path items. -/
structure RunEnv where
  getProp : Except PyExc String
  loads : String → Except PyExc ServiceStatus
  is_other_plugin_name : Bool
  window_is_media : Bool
  request_path : String
  is_addon_firstrun : Bool
  check_addon_upgrade : Except PyExc (Bool × Bool)
  routeFn : List String → Except PyExc Bool

/-- The `try` block of `run` (run_addon.py lines 195-210): parse the path,
run the upgrade check on first run (its exceptions propagate to the
`except` clauses), short-circuit to `False` when `cancel_playback` holds
and `g.MODE_PLAY in pathitems[:1]`, otherwise call `route`.  The first
component counts `route` invocations; the second is the block's outcome. -/
def runTryBlock (env : RunEnv) : Nat × Except PyExc Bool :=
  let pathitems := pathSegments env.request_path
  match (if env.is_addon_firstrun then env.check_addon_upgrade else Except.ok (false, false)) with
  | Except.error e => (0, Except.error e)
  | Except.ok (_, cancel_playback) =>
    if cancel_playback && (pathitems.take 1).contains MODE_PLAY then (0, Except.ok false)
    else (1, env.routeFn pathitems)

/-- Observable outcome of one invocation of `run`: the final success flag,
the number of `route` invocations, the dialogs shown in order, and the
number of `endOfDirectory` calls made by `run` itself. -/
structure RunTrace where
  success : Bool
  routeCalls : Nat
  dialogs : List Dialog
  endOfDirectoryCalls : Nat
deriving DecidableEq, Repr

/-- `run` (run_addon.py lines 163-245).  The service-status gate (lines
182-193) shows a dialog only for non-external calls; the routing block runs
only when the service is running; each `except` clause shows its dialog and
flags failure; `endOfDirectory(succeeded=False)` is called exactly when
`success` is false (lines 242-244).  The function is total: every modelled
exception the try block raises is consumed by `mapRunException`. -/
def run (env : RunEnv) : RunTrace :=
  let service_status := _get_service_status env.getProp env.loads
  let is_external_call := check_addon_external_call_flag env.is_other_plugin_name env.window_is_media
  if service_status.status ≠ some "running" then
    let dialogs :=
      if is_external_call then []
      else if service_status.status = some "error" then [Dialog.show_error_info]
      else [Dialog.show_backend_not_ready]
    ⟨false, 0, dialogs, 1⟩
  else
    match runTryBlock env with
    | (n, Except.ok s) => ⟨s, n, [], if s then 0 else 1⟩
    | (n, Except.error e) => ⟨false, n, [mapRunException e], 1⟩

/-- A route environment over trivial handler data whose member lookup
always succeeds. -/
def envOkUU : RouteEnv Unit Unit where
  play := fun _ => Except.ok ()
  play_strm := fun _ => Except.ok ()
  instantiate := fun _ => Except.ok ()
  getMember := fun _ _ => Except.ok ()
  invoke := fun _ _ => Except.ok ()

/-- A route environment over trivial handler data whose member lookup
always raises `AttributeError` (the handler has no such member). -/
def envAttrErr : RouteEnv Unit Unit where
  play := fun _ => Except.ok ()
  play_strm := fun _ => Except.ok ()
  instantiate := fun _ => Except.ok ()
  getMember := fun _ _ => Except.error PyExc.AttributeError
  invoke := fun _ _ => Except.ok ()

/-- A member lookup that always raises `AttributeError`, over trivial
handler data. -/
def gmAttrErr : Unit → String → Except PyExc Unit :=
  fun _ _ => Except.error PyExc.AttributeError

/-- A member invocation that always succeeds, over trivial handler data. -/
def ivOk : Unit → List String → Except PyExc Unit :=
  fun _ _ => Except.ok ()

/-- A JSON parse that always fails. -/
def loadsFail : String → Except PyExc ServiceStatus :=
  fun s => Except.error (PyExc.OtherException s)

/-- A JSON parse that always yields a `running` status. -/
def loadsRunning : String → Except PyExc ServiceStatus :=
  fun _ => Except.ok ⟨some "running", none⟩

/-- A run environment in which the service is running and routing
succeeds. -/
def envRunOk : RunEnv where
  getProp := Except.ok "status-blob"
  loads := loadsRunning
  is_other_plugin_name := false
  window_is_media := true
  request_path := ""
  is_addon_firstrun := false
  check_addon_upgrade := Except.ok (false, false)
  routeFn := fun _ => Except.ok true

/-- A run environment in which the service is running and routing raises
an unexpected exception. -/
def envRunRaise : RunEnv where
  getProp := Except.ok "status-blob"
  loads := loadsRunning
  is_other_plugin_name := false
  window_is_media := true
  request_path := "directory/home"
  is_addon_firstrun := false
  check_addon_upgrade := Except.ok (false, false)
  routeFn := fun _ => Except.error (PyExc.OtherException "boom")

/-- A run environment for a first run whose upgrade check reports the
temporary cancel-playback condition while the request is a play request. -/
def envRunCancel : RunEnv where
  getProp := Except.ok "status-blob"
  loads := loadsRunning
  is_other_plugin_name := false
  window_is_media := true
  request_path := "play/70211656"
  is_addon_firstrun := true
  check_addon_upgrade := Except.ok (false, true)
  routeFn := fun _ => Except.ok true

/-- A wrapped dispatch function that raises `NotLoggedInError` on every
call. -/
def funcAlwaysNotLoggedIn : Nat → Except PyExc Bool :=
  fun _ => Except.error PyExc.NotLoggedInError

/-- A recovery login that always succeeds. -/
def loginOk : Bool → Except PyExc Bool :=
  fun _ => Except.ok true

end RunAddon

namespace RunAddon

/-- C1: if a dispatch function wrapped by `lazy_login` raises a
session-invalid failure (`NotLoggedInError` or `LoginValidateError`) on its
first call, the wrapper performs exactly one recovery login and calls the
wrapped function exactly one more time; and if that retried call raises a
session-invalid failure again, that second failure propagates out of the
wrapper unchanged. -/
theorem lazy_login_single_recovery_retry (check_credentials : Bool)
    (login : Bool → Except PyExc Bool) (func : Nat → Except PyExc Bool) (e : PyExc)
    (h0 : func 0 = Except.error e) (he : sessionInvalid e = true)
    (hl : login (!check_credentials) = Except.ok true) :
    (lazy_login_wrapper (Except.ok true) check_credentials login func).recoveryLogins = 1 ∧
    (lazy_login_wrapper (Except.ok true) check_credentials login func).funcCalls = 2 ∧
    (∀ e2 : PyExc, func 1 = Except.error e2 → sessionInvalid e2 = true →
      (lazy_login_wrapper (Except.ok true) check_credentials login func).result
        = Except.error e2) := by
  have hw : lazy_login_wrapper (Except.ok true) check_credentials login func
      = lazy_login_recovery check_credentials login func 1 := by
    unfold lazy_login_wrapper
    rw [h0]
    simp [he]
  rw [hw]
  unfold lazy_login_recovery
  rw [hl]
  rcases hf : func 1 with e2 | b
  · refine ⟨?_, ?_, ?_⟩
    · cases e2 <;> rfl
    · cases e2 <;> rfl
    · intro e3 h3 hs3
      cases h3
      cases e2 <;> simp_all [sessionInvalid]
  · refine ⟨rfl, rfl, ?_⟩
    intro e3 h3 hs3
    simp at h3

/-- C1 witness: with valid credentials, a successful recovery login and a
wrapped function that raises `NotLoggedInError` on every call, the wrapper
performs one recovery login, calls the function twice, and propagates the
second `NotLoggedInError`. -/
theorem lazy_login_single_recovery_retry_witness :
    (lazy_login_wrapper (Except.ok true) true loginOk funcAlwaysNotLoggedIn).recoveryLogins = 1 ∧
    (lazy_login_wrapper (Except.ok true) true loginOk funcAlwaysNotLoggedIn).funcCalls = 2 ∧
    (lazy_login_wrapper (Except.ok true) true loginOk funcAlwaysNotLoggedIn).result
      = Except.error PyExc.NotLoggedInError := by
  have h := lazy_login_single_recovery_retry true loginOk funcAlwaysNotLoggedIn
    PyExc.NotLoggedInError rfl rfl rfl
  exact ⟨h.1, h.2.1, h.2.2 PyExc.NotLoggedInError rfl rfl⟩

/-- Characterization of `run` when the probed service status is `running`:
the outcome is determined by the try block and its exception mapping. -/
theorem run_eq_of_running (env : RunEnv)
    (h : (_get_service_status env.getProp env.loads).status = some "running") :
    run env = (match runTryBlock env with
      | (n, Except.ok s) => RunTrace.mk s n [] (if s then 0 else 1)
      | (n, Except.error e) => RunTrace.mk false n [mapRunException e] 1) := by
  simp only [run, h]
  simp

/-- Characterization of `run` when the probed service status is not
`running`: failure is flagged, no routing happens, a dialog is shown only
for non-external calls, and `endOfDirectory` is called once. -/
theorem run_eq_of_not_running (env : RunEnv)
    (h : (_get_service_status env.getProp env.loads).status ≠ some "running") :
    run env = RunTrace.mk false 0
      (if check_addon_external_call_flag env.is_other_plugin_name env.window_is_media then []
       else if (_get_service_status env.getProp env.loads).status = some "error" then
         [Dialog.show_error_info]
       else [Dialog.show_backend_not_ready]) 1 := by
  simp only [run]
  rw [if_pos h]

/-- C2 counterexample: in a fully successful invocation (service running,
routing returns true) `run` makes zero `endOfDirectory` calls, refuting the
claim that `run` always signals end-of-results before returning. -/
theorem run_success_skips_endOfDirectory :
    (run envRunOk).success = true ∧ (run envRunOk).endOfDirectoryCalls = 0 :=
  ⟨rfl, rfl⟩

/-- C2 (amended): `run` signals end-of-results to the host (calls
`endOfDirectory`, with the failure flag) exactly when the overall outcome
is failure; on success `run` itself makes no `endOfDirectory` call. -/
theorem run_endOfDirectory_iff_failure (env : RunEnv) :
    (run env).endOfDirectoryCalls = (if (run env).success then 0 else 1) := by
  by_cases h : (_get_service_status env.getProp env.loads).status = some "running"
  · rw [run_eq_of_running env h]
    rcases hrt : runTryBlock env with ⟨n, r⟩
    rcases r with e | s
    · rfl
    · rcases s <;> rfl
  · rw [run_eq_of_not_running env h]
    rfl

/-- C3: `run` is a total function of its collaborators' behaviour — every
exception the routing block raises (`route`, the upgrade check) is caught
by one of the `except` clauses, which are exhaustive over the modelled
`Exception` hierarchy — and each such exception is mapped to a dialog plus
overall failure, with `endOfDirectory` still signalled, so the host never
sees a raw crash. -/
theorem run_catches_all_route_errors (env : RunEnv) (e : PyExc)
    (hs : (_get_service_status env.getProp env.loads).status = some "running")
    (he : (runTryBlock env).2 = Except.error e) :
    (run env).success = false ∧ (run env).dialogs = [mapRunException e] ∧
    (run env).endOfDirectoryCalls = 1 := by
  rw [run_eq_of_running env hs]
  rcases hrt : runTryBlock env with ⟨n, r⟩
  rw [hrt] at he
  simp at he
  subst he
  exact ⟨rfl, rfl, rfl⟩

/-- C3 witness: a routing call raising an unexpected exception yields a
non-crashing outcome: failure, one generic-error dialog, one
`endOfDirectory` call. -/
theorem run_catches_all_route_errors_witness :
    (run envRunRaise).success = false ∧
    (run envRunRaise).dialogs = [mapRunException (PyExc.OtherException "boom")] ∧
    (run envRunRaise).endOfDirectoryCalls = 1 :=
  run_catches_all_route_errors envRunRaise (PyExc.OtherException "boom") rfl rfl

/-- C4 counterexample: for path `library/export` where the handler has no
`export` member, the `InvalidPathError` message is `Unknown action export`,
which does not contain `library/export` — the error does not name the full
unresolved path. -/
theorem route_library_export_message :
    (route envAttrErr ["library", "export"]).2
      = Except.error (PyExc.InvalidPathError "Unknown action export") ∧
    ¬ ("library/export".toList <:+: "Unknown action export".toList) :=
  ⟨rfl, by decide⟩

/-- C4 (amended): when the library handler has no member named by the
second path segment, routing fails with an `InvalidPathError` naming the
unresolved action — the path segments after the root joined with `/` (for
`library/export`, the message is `Unknown action export`), not the full
path. -/
theorem route_unknown_action_names_subpath {H A : Type} (env : RouteEnv H A)
    (rest : List String)
    (h : (env.instantiate NavHandler.LibraryActionExecutor).bind
          (fun executor => env.getMember executor (rest.headD "root"))
        = Except.error PyExc.AttributeError) :
    (route env (MODE_LIBRARY :: rest)).2
      = Except.error (PyExc.InvalidPathError ("Unknown action " ++ joinPath rest)) := by
  have hstep : route env (MODE_LIBRARY :: rest)
      = (1, (_execute (env.instantiate NavHandler.LibraryActionExecutor)
              env.getMember env.invoke rest).map (fun _ => true)) := rfl
  rw [hstep]
  simp only [_execute]
  rw [h]
  rfl

/-- C4 amended-claim witness: the concrete `library/export` scenario. -/
theorem route_unknown_action_names_subpath_witness :
    (route envAttrErr (MODE_LIBRARY :: ["export"])).2
      = Except.error (PyExc.InvalidPathError ("Unknown action " ++ joinPath ["export"])) :=
  route_unknown_action_names_subpath envAttrErr ["export"] rfl

/-- C5: for every path whose root segment is outside the recognized set
(play, legacy play, ignore, directory, action, library, hub), routing
fails with an `InvalidPathError` whose message contains the original path
segments joined with `/`. -/
theorem route_unknown_root_invalid_path {H A : Type} (env : RouteEnv H A)
    (pathitems : List String)
    (h1 : pathitems.headD MODE_DIRECTORY ≠ MODE_PLAY)
    (h2 : pathitems.headD MODE_DIRECTORY ≠ MODE_PLAY_STRM)
    (h3 : pathitems.headD MODE_DIRECTORY ≠ "extrafanart")
    (h4 : pathitems.headD MODE_DIRECTORY ≠ MODE_DIRECTORY)
    (h5 : pathitems.headD MODE_DIRECTORY ≠ MODE_ACTION)
    (h6 : pathitems.headD MODE_DIRECTORY ≠ MODE_LIBRARY)
    (h7 : pathitems.headD MODE_DIRECTORY ≠ MODE_HUB) :
    route env pathitems
      = (0, Except.error (PyExc.InvalidPathError
          ("No root handler for path " ++ joinPath pathitems)))
    ∧ (joinPath pathitems).toList
        <:+: ("No root handler for path " ++ joinPath pathitems).toList := by
  constructor
  · have hnav : _get_nav_handler (pathitems.headD MODE_DIRECTORY) = none := by
      simp only [_get_nav_handler]
      rw [if_neg h7, if_neg h6, if_neg h5, if_neg h4]
    simp only [route]
    rw [if_neg h1, if_neg h2, if_neg h3, hnav]
  · refine List.IsSuffix.isInfix ?_
    have hsplit : ("No root handler for path " ++ joinPath pathitems).toList
        = "No root handler for path ".toList ++ (joinPath pathitems).toList := by
      simp [String.toList]
    rw [hsplit]
    exact List.suffix_append _ _

/-- C5 witness: the unrecognized path `foo/bar` yields an
`InvalidPathError` containing `foo/bar` with no handler instantiated. -/
theorem route_unknown_root_invalid_path_witness :
    route envOkUU ["foo", "bar"]
      = (0, Except.error (PyExc.InvalidPathError
          ("No root handler for path " ++ joinPath ["foo", "bar"])))
    ∧ (joinPath ["foo", "bar"]).toList
        <:+: ("No root handler for path " ++ joinPath ["foo", "bar"]).toList :=
  route_unknown_root_invalid_path envOkUU ["foo", "bar"] (by decide) (by decide)
    (by decide) (by decide) (by decide) (by decide) (by decide)

/-- C6: for every value of the status-store property — a raising read, an
empty/absent value, or a string the JSON parse rejects — the Service
Status Probe returns the empty status; `_get_service_status` is a total
function, so it never raises. -/
theorem get_service_status_malformed_empty (getProp : Except PyExc String)
    (loads : String → Except PyExc ServiceStatus)
    (h : (∃ e, getProp = Except.error e) ∨ getProp = Except.ok "" ∨
         (∃ s e, getProp = Except.ok s ∧ loads s = Except.error e)) :
    _get_service_status getProp loads = emptyStatus := by
  rcases h with ⟨e, he⟩ | he | ⟨s, e, hs, hl⟩
  · rw [he]
    rfl
  · rw [he]
    rfl
  · rw [hs]
    simp only [_get_service_status]
    by_cases hse : s = ""
    · simp [hse]
    · simp [hse, hl]

/-- C6 witness: a stored value the parse rejects yields the empty status. -/
theorem get_service_status_malformed_empty_witness :
    _get_service_status (Except.ok "not a json object") loadsFail = emptyStatus :=
  get_service_status_malformed_empty (Except.ok "not a json object") loadsFail
    (Or.inr (Or.inr ⟨"not a json object", PyExc.OtherException "not a json object", rfl, rfl⟩))

/-- Bound on the wait loop of `_check_addon_external_call`: starting from
any elapsed time not past the limit, the number of iterations is at most
the remaining poll intervals plus one. -/
theorem wait_loop_iterations_le (running stop : Nat → Bool) (L : Nat) :
    ∀ d e, e ≤ L → L - e = d →
      external_call_wait_loop running stop L e ≤ L + 1 - e := by
  intro d
  induction d with
  | zero =>
    intro e hle he
    rw [external_call_wait_loop]
    split
    · omega
    · have hLe : L ≤ e := by omega
      simp [hLe]
      omega
  | succ n ih =>
    intro e hle he
    rw [external_call_wait_loop]
    split
    · omega
    · split
      · omega
      · rename_i hcond
        simp at hcond
        have := ih (e + 1) (by omega) (by omega)
        omega

/-- C7: for every status and abort behaviour — in particular when the
status never becomes `running` and no abort is requested — the
External-Call Guard's wait loop runs at most `2 * limit_sec + 1 = 21`
iterations of 0.5 s, i.e. it terminates within the 10 s timeout plus one
poll interval. -/
theorem external_call_wait_loop_bounded (running stop : Nat → Bool) :
    external_call_wait_loop running stop (2 * limit_sec) 0 ≤ 2 * limit_sec + 1 := by
  have h := wait_loop_iterations_le running stop (2 * limit_sec) (2 * limit_sec) 0
    (Nat.zero_le _) rfl
  simpa using h

/-- C8: on a first-run invocation whose upgrade check reports the
temporary cancel-playback condition, with a request path whose first
segment is the play root, `run` flags overall failure without invoking
`route` (hence no handler). -/
theorem run_migration_cancel_playback (env : RunEnv)
    (hs : (_get_service_status env.getProp env.loads).status = some "running")
    (hf : env.is_addon_firstrun = true)
    (hc : ∃ fri, env.check_addon_upgrade = Except.ok (fri, true))
    (hp : (pathSegments env.request_path).head? = some MODE_PLAY) :
    (run env).success = false ∧ (run env).routeCalls = 0 := by
  obtain ⟨fri, hcu⟩ := hc
  have hrt : runTryBlock env = (0, Except.ok false) := by
    simp only [runTryBlock, hf, if_true, hcu, Bool.true_and]
    cases hpp : pathSegments env.request_path with
    | nil => rw [hpp] at hp; simp at hp
    | cons a t =>
      rw [hpp] at hp
      simp at hp
      subst hp
      simp
  rw [run_eq_of_running env hs, hrt]
  exact ⟨rfl, rfl⟩

/-- C8 witness: a first run with cancel-playback reported and path
`play/70211656` fails without any `route` invocation. -/
theorem run_migration_cancel_playback_witness :
    (run envRunCancel).success = false ∧ (run envRunCancel).routeCalls = 0 :=
  run_migration_cancel_playback envRunCancel rfl rfl ⟨false, rfl⟩ rfl

/-- C9: for every path whose root segment is the reserved ignore segment
`extrafanart`, routing returns false with zero handler instantiations and
no error. -/
theorem route_extrafanart_noop {H A : Type} (env : RouteEnv H A) (pathitems : List String)
    (h : pathitems.head? = some "extrafanart") :
    route env pathitems = (0, Except.ok false) := by
  cases pathitems with
  | nil => simp at h
  | cons a t =>
    simp at h
    subst h
    rfl

/-- C9 witness: the path `extrafanart` returns false with no handler
instantiation and no error. -/
theorem route_extrafanart_noop_witness :
    route envOkUU ["extrafanart"] = (0, Except.ok false) :=
  route_extrafanart_noop envOkUU ["extrafanart"] rfl

/-- C10: the `try` block of `_execute` covers the handler instantiation as
well as the member lookup, so an `AttributeError` raised by the handler's
constructor is converted to the same `InvalidPathError` (`Unknown action`
naming the sub-path) as a missing action member — the two cases are
indistinguishable. -/
theorem execute_ctor_attribute_error {H A : Type}
    (getMember : H → String → Except PyExc A) (invoke : A → List String → Except PyExc Unit)
    (pathitems : List String) :
    _execute (Except.error PyExc.AttributeError) getMember invoke pathitems
      = Except.error (PyExc.InvalidPathError ("Unknown action " ++ joinPath pathitems)) ∧
    (∀ executor : H,
      getMember executor (pathitems.headD "root") = Except.error PyExc.AttributeError →
      _execute (Except.ok executor) getMember invoke pathitems
        = _execute (Except.error PyExc.AttributeError) getMember invoke pathitems) := by
  constructor
  · rfl
  · intro executor hex
    simp only [_execute]
    rw [show (Except.ok executor).bind
          (fun ex => getMember ex (pathitems.headD "root"))
        = getMember executor (pathitems.headD "root") from rfl, hex]
    rfl

/-- C10 witness: with a member lookup that raises `AttributeError`, a
constructor `AttributeError` and a missing member produce the identical
`InvalidPathError`. -/
theorem execute_ctor_attribute_error_witness :
    (_execute (Except.error PyExc.AttributeError) gmAttrErr ivOk ["export"]
      = Except.error (PyExc.InvalidPathError ("Unknown action " ++ joinPath ["export"]))) ∧
    (_execute (Except.ok ()) gmAttrErr ivOk ["export"]
      = _execute (Except.error PyExc.AttributeError) gmAttrErr ivOk ["export"]) := by
  have h := execute_ctor_attribute_error gmAttrErr ivOk ["export"]
  exact ⟨h.1, h.2 () rfl⟩

end RunAddon
